import Mathlib

/-!
Verification of the gphoto binding layer against its specification.

The development shallowly embeds the binding code: native C status codes
and bitmasks become `Int`/`Nat` constants mirroring the wrapped library
headers, C byte buffers become `List Nat`, fallible operations return
`Except Error _`, and native resource acquisition/release is tracked as an
explicit event trace.
-/

namespace Gphoto

/-! ## Native status codes (libgphoto2 result codes, mirrored by the sys crate) -/

def GP_OK : Int := 0
def GP_ERROR_BAD_PARAMETERS : Int := -2
def GP_ERROR_NO_MEMORY : Int := -3
def GP_ERROR_CORRUPTED_DATA : Int := -102
def GP_ERROR_FILE_EXISTS : Int := -103
def GP_ERROR_MODEL_NOT_FOUND : Int := -105
def GP_ERROR_DIRECTORY_NOT_FOUND : Int := -107
def GP_ERROR_FILE_NOT_FOUND : Int := -108
def GP_ERROR_DIRECTORY_EXISTS : Int := -109
def GP_ERROR_CAMERA_BUSY : Int := -110
def GP_ERROR_PATH_NOT_ABSOLUTE : Int := -111
def GP_ERROR_CANCEL : Int := -112
def GP_ERROR_CAMERA_ERROR : Int := -113
def GP_ERROR_OS_FAILURE : Int := -114
def GP_ERROR_NO_SPACE : Int := -115

/-- The twelve native codes that `Error::kind` recognizes (src/error.rs). -/
def recognizedErrorCodes : List Int :=
  [GP_ERROR_CORRUPTED_DATA, GP_ERROR_FILE_EXISTS, GP_ERROR_MODEL_NOT_FOUND,
   GP_ERROR_DIRECTORY_NOT_FOUND, GP_ERROR_FILE_NOT_FOUND, GP_ERROR_DIRECTORY_EXISTS,
   GP_ERROR_CAMERA_BUSY, GP_ERROR_PATH_NOT_ABSOLUTE, GP_ERROR_CANCEL,
   GP_ERROR_CAMERA_ERROR, GP_ERROR_OS_FAILURE, GP_ERROR_NO_SPACE]

/-! ## Error mapping (src/error.rs) -/

/-- `ErrorKind` from src/error.rs. -/
inductive ErrorKind where
  | CorruptedData
  | ModelNotFound
  | FileExists
  | DirectoryExists
  | DirectoryNotFound
  | FileNotFound
  | CameraBusy
  | PathNotAbsolute
  | Cancel
  | CameraError
  | OSFailure
  | NoSpace
  | Other
deriving DecidableEq, Repr

/-- `Error` from src/error.rs: wraps the raw native status code. -/
structure Error where
  err : Int
deriving DecidableEq, Repr

/-- `Error::kind` from src/error.rs: the match over the native code,
rendered as an if-chain in source order, with the final wildcard arm
producing `Other`. -/
def Error.kind (e : Error) : ErrorKind :=
  if e.err = GP_ERROR_CORRUPTED_DATA then ErrorKind.CorruptedData
  else if e.err = GP_ERROR_FILE_EXISTS then ErrorKind.FileExists
  else if e.err = GP_ERROR_MODEL_NOT_FOUND then ErrorKind.ModelNotFound
  else if e.err = GP_ERROR_DIRECTORY_NOT_FOUND then ErrorKind.DirectoryNotFound
  else if e.err = GP_ERROR_FILE_NOT_FOUND then ErrorKind.FileNotFound
  else if e.err = GP_ERROR_DIRECTORY_EXISTS then ErrorKind.DirectoryExists
  else if e.err = GP_ERROR_CAMERA_BUSY then ErrorKind.CameraBusy
  else if e.err = GP_ERROR_PATH_NOT_ABSOLUTE then ErrorKind.PathNotAbsolute
  else if e.err = GP_ERROR_CANCEL then ErrorKind.Cancel
  else if e.err = GP_ERROR_CAMERA_ERROR then ErrorKind.CameraError
  else if e.err = GP_ERROR_OS_FAILURE then ErrorKind.OSFailure
  else if e.err = GP_ERROR_NO_SPACE then ErrorKind.NoSpace
  else ErrorKind.Other

/-- `from_libgphoto2` from src/error.rs. -/
def from_libgphoto2 (err : Int) : Error := { err := err }

end Gphoto

namespace Gphoto

/-- Claim C1: for every native integer status code, `Error::kind` returns the
documented classification when the code is one of the twelve recognized
gphoto2 error constants, and returns `Other` for every other code. -/
theorem C1_error_kind_classification :
    (from_libgphoto2 GP_ERROR_CORRUPTED_DATA).kind = ErrorKind.CorruptedData
    ∧ (from_libgphoto2 GP_ERROR_FILE_EXISTS).kind = ErrorKind.FileExists
    ∧ (from_libgphoto2 GP_ERROR_MODEL_NOT_FOUND).kind = ErrorKind.ModelNotFound
    ∧ (from_libgphoto2 GP_ERROR_DIRECTORY_NOT_FOUND).kind = ErrorKind.DirectoryNotFound
    ∧ (from_libgphoto2 GP_ERROR_FILE_NOT_FOUND).kind = ErrorKind.FileNotFound
    ∧ (from_libgphoto2 GP_ERROR_DIRECTORY_EXISTS).kind = ErrorKind.DirectoryExists
    ∧ (from_libgphoto2 GP_ERROR_CAMERA_BUSY).kind = ErrorKind.CameraBusy
    ∧ (from_libgphoto2 GP_ERROR_PATH_NOT_ABSOLUTE).kind = ErrorKind.PathNotAbsolute
    ∧ (from_libgphoto2 GP_ERROR_CANCEL).kind = ErrorKind.Cancel
    ∧ (from_libgphoto2 GP_ERROR_CAMERA_ERROR).kind = ErrorKind.CameraError
    ∧ (from_libgphoto2 GP_ERROR_OS_FAILURE).kind = ErrorKind.OSFailure
    ∧ (from_libgphoto2 GP_ERROR_NO_SPACE).kind = ErrorKind.NoSpace
    ∧ (∀ c : Int, c ∉ recognizedErrorCodes → (from_libgphoto2 c).kind = ErrorKind.Other) := by
  refine ⟨by decide, by decide, by decide, by decide, by decide, by decide, by decide,
    by decide, by decide, by decide, by decide, by decide, ?_⟩
  intro c hc
  simp only [recognizedErrorCodes, List.mem_cons, List.not_mem_nil, or_false] at hc
  push_neg at hc
  obtain ⟨h1, h2, h3, h4, h5, h6, h7, h8, h9, h10, h11, h12⟩ := hc
  simp [Error.kind, from_libgphoto2, h1, h2, h3, h4, h5, h6, h7, h8, h9, h10, h11, h12]

/-- Witness for C1: the unrecognized code 999 classifies as `Other`. -/
theorem C1_witness :
    ((999 : Int) ∉ recognizedErrorCodes) ∧ (from_libgphoto2 999).kind = ErrorKind.Other :=
  ⟨by decide, (C1_error_kind_classification.2.2.2.2.2.2.2.2.2.2.2.2) 999 (by decide)⟩

end Gphoto

namespace Gphoto

/-! ## C strings and UTF-8 decoding

C byte buffers are `List Nat`.  `cstr` models `CStr::from_ptr(..).to_bytes()`:
the bytes of a buffer up to (excluding) the first NUL terminator.
`utf8Decode` models strict validation as performed by `String::from_utf8`
(`some` = list of decoded code points, `none` = invalid UTF-8), and
`utf8Lossy` models `String::from_utf8_lossy` (total; invalid byte sequences
are replaced by the replacement character U+FFFD).
-/

/-- The bytes of a C string buffer up to the first NUL terminator. -/
def cstr (buf : List Nat) : List Nat := buf.takeWhile (fun b => b != 0)

/-- The replacement character U+FFFD emitted by lossy decoding. -/
def replacementChar : Nat := 0xFFFD

/-- Is `b` a UTF-8 continuation byte (0x80..0xBF)? -/
def contByte (b : Nat) : Bool := 0x80 ≤ b && b < 0xC0

/-- Valid second byte of a three-byte sequence with leading byte `b`
(the special ranges of 0xE0 and 0xED exclude overlong and surrogate forms). -/
def validSnd3 (b b1 : Nat) : Bool :=
  if b = 0xE0 then 0xA0 ≤ b1 && b1 < 0xC0
  else if b = 0xED then 0x80 ≤ b1 && b1 < 0xA0
  else contByte b1

/-- Valid second byte of a four-byte sequence with leading byte `b`
(the special ranges of 0xF0 and 0xF4 exclude overlong forms and code points
above U+10FFFF). -/
def validSnd4 (b b1 : Nat) : Bool :=
  if b = 0xF0 then 0x90 ≤ b1 && b1 < 0xC0
  else if b = 0xF4 then 0x80 ≤ b1 && b1 < 0x90
  else contByte b1

/-- Decode one UTF-8 sequence starting at lead byte `b` followed by `rest`:
`some (cp, k)` is the decoded code point together with the number of
continuation bytes consumed; `none` means no valid sequence starts here. -/
def utf8Chunk (b : Nat) (rest : List Nat) : Option (Nat × Nat) :=
  if b < 0x80 then some (b, 0)
  else if b < 0xC2 then none
  else if b < 0xE0 then
    match rest with
    | b1 :: _ => if contByte b1 then some ((b - 0xC0) * 64 + (b1 - 0x80), 1) else none
    | [] => none
  else if b < 0xF0 then
    match rest with
    | b1 :: b2 :: _ =>
      if validSnd3 b b1 && contByte b2 then
        some ((b - 0xE0) * 4096 + (b1 - 0x80) * 64 + (b2 - 0x80), 2)
      else none
    | _ => none
  else if b < 0xF5 then
    match rest with
    | b1 :: b2 :: b3 :: _ =>
      if validSnd4 b b1 && contByte b2 && contByte b3 then
        some ((b - 0xF0) * 262144 + (b1 - 0x80) * 4096 + (b2 - 0x80) * 64 + (b3 - 0x80), 3)
      else none
    | _ => none
  else none

/-- When no valid sequence starts at lead byte `b`, the number of bytes of
`rest` that still belong to the maximal valid prefix of the broken sequence
(Rust lossy decoding replaces that whole prefix by one U+FFFD). -/
def utf8ErrSkip (b : Nat) (rest : List Nat) : Nat :=
  if b < 0xE0 then 0
  else if b < 0xF0 then
    match rest with
    | b1 :: _ => if validSnd3 b b1 then 1 else 0
    | [] => 0
  else if b < 0xF5 then
    match rest with
    | b1 :: b2 :: _ => if validSnd4 b b1 then (if contByte b2 then 2 else 1) else 0
    | [b1] => if validSnd4 b b1 then 1 else 0
    | [] => 0
  else 0

/-- Strict UTF-8 decoding with explicit fuel (one unit per decoded or
rejected sequence; `l.length` units always suffice). -/
def utf8DecodeF : Nat → List Nat → Option (List Nat)
  | _, [] => some []
  | 0, _ :: _ => none
  | fuel + 1, b :: rest =>
    match utf8Chunk b rest with
    | some (cp, k) => (utf8DecodeF fuel (rest.drop k)).map (fun cs => cp :: cs)
    | none => none

/-- Lossy UTF-8 decoding with explicit fuel. -/
def utf8LossyF : Nat → List Nat → List Nat
  | _, [] => []
  | 0, _ :: _ => []
  | fuel + 1, b :: rest =>
    match utf8Chunk b rest with
    | some (cp, k) => cp :: utf8LossyF fuel (rest.drop k)
    | none => replacementChar :: utf8LossyF fuel (rest.drop (utf8ErrSkip b rest))

/-- Strict UTF-8 decoding of a byte list into code points.
`none` models a `FromUtf8Error` from `String::from_utf8`. -/
def utf8Decode (l : List Nat) : Option (List Nat) := utf8DecodeF l.length l

/-- Lossy UTF-8 decoding of a byte list into code points, modelling
`String::from_utf8_lossy`: total, substituting U+FFFD where strict decoding
would fail and resuming after the offending maximal prefix. -/
def utf8Lossy (l : List Nat) : List Nat := utf8LossyF l.length l

example : utf8Decode [0x61, 0xC3, 0xA9] = some [0x61, 0xE9] := by decide
example : utf8Decode [0xFF] = none := by decide
example : utf8Lossy [0x61, 0xFF, 0x62] = [0x61, replacementChar, 0x62] := by decide
example : utf8Lossy [0xE0, 0xA0, 0x80] = [0x800] := by decide
example : utf8Lossy [0xE0, 0xA0, 0x61] = [replacementChar, 0x61] := by decide

/-- Fuel-level agreement: lossy decoding reproduces strict decoding on valid
input, for any sufficient fuel. -/
theorem utf8LossyF_eq_of_utf8DecodeF :
    ∀ (fuel : Nat) (l cs : List Nat), utf8DecodeF fuel l = some cs → utf8LossyF fuel l = cs := by
  intro fuel
  induction fuel with
  | zero =>
    intro l cs h
    cases l with
    | nil =>
      simp only [utf8DecodeF, Option.some.injEq] at h
      subst h
      simp [utf8LossyF]
    | cons b rest => simp [utf8DecodeF] at h
  | succ fuel ih =>
    intro l cs h
    cases l with
    | nil =>
      simp only [utf8DecodeF, Option.some.injEq] at h
      subst h
      simp [utf8LossyF]
    | cons b rest =>
      rw [utf8DecodeF] at h
      rw [utf8LossyF]
      cases hchunk : utf8Chunk b rest with
      | none => rw [hchunk] at h; simp at h
      | some v =>
        obtain ⟨cp, k⟩ := v
        rw [hchunk] at h
        simp at h
        obtain ⟨cs0, hcs0, hcons⟩ := h
        subst hcons
        simp [ih _ _ hcs0]

/-- Fuel-level replacement: lossy decoding emits the replacement character
whenever strict decoding fails, for matching fuel. -/
theorem replacement_mem_utf8LossyF :
    ∀ (fuel : Nat) (l : List Nat), l.length ≤ fuel → utf8DecodeF fuel l = none →
      replacementChar ∈ utf8LossyF fuel l := by
  intro fuel
  induction fuel with
  | zero =>
    intro l hl h
    cases l with
    | nil => simp [utf8DecodeF] at h
    | cons b rest => simp at hl
  | succ fuel ih =>
    intro l hl h
    cases l with
    | nil => simp [utf8DecodeF] at h
    | cons b rest =>
      rw [utf8DecodeF] at h
      rw [utf8LossyF]
      cases hchunk : utf8Chunk b rest with
      | none => simp
      | some v =>
        obtain ⟨cp, k⟩ := v
        rw [hchunk] at h
        simp at h
        have hrec : replacementChar ∈ utf8LossyF fuel (rest.drop k) := by
          refine ih _ ?_ h
          simp only [List.length_cons] at hl
          have := List.length_drop k rest
          omega
        simp [List.mem_cons, hrec]

/-- Lossy decoding agrees with strict decoding on valid UTF-8 input. -/
theorem utf8Lossy_eq_of_utf8Decode {l cs : List Nat}
    (h : utf8Decode l = some cs) : utf8Lossy l = cs :=
  utf8LossyF_eq_of_utf8DecodeF l.length l cs h

/-- Lossy decoding substitutes the replacement character whenever strict
decoding fails. -/
theorem replacement_mem_utf8Lossy {l : List Nat}
    (h : utf8Decode l = none) : replacementChar ∈ utf8Lossy l :=
  replacement_mem_utf8LossyF l.length l le_rfl h

end Gphoto

namespace Gphoto

/-! ## Storage (src/storage.rs)

The C struct `CameraStorageInformation` is mirrored with byte buffers as
`List Nat`, the `fields` presence bitmask as `Nat`, the three enum-typed
slots as the corresponding FFI enums of the sys crate, and the three
unsigned 64-bit counters as `Nat`.
-/

/-- Presence bit for the base directory field (`GP_STORAGEINFO_BASE`). -/
def GP_STORAGEINFO_BASE : Nat := 1
def GP_STORAGEINFO_LABEL : Nat := 2
def GP_STORAGEINFO_DESCRIPTION : Nat := 4
def GP_STORAGEINFO_ACCESS : Nat := 8
def GP_STORAGEINFO_STORAGETYPE : Nat := 16
def GP_STORAGEINFO_FILESYSTEMTYPE : Nat := 32
def GP_STORAGEINFO_MAXCAPACITY : Nat := 64
def GP_STORAGEINFO_FREESPACEKBYTES : Nat := 128
def GP_STORAGEINFO_FREESPACEIMAGES : Nat := 256

/-- The FFI enum `CameraStorageType` of the wrapped library. -/
inductive CameraStorageType where
  | GP_STORAGEINFO_ST_UNKNOWN
  | GP_STORAGEINFO_ST_FIXED_ROM
  | GP_STORAGEINFO_ST_REMOVABLE_ROM
  | GP_STORAGEINFO_ST_FIXED_RAM
  | GP_STORAGEINFO_ST_REMOVABLE_RAM
deriving DecidableEq, Repr

/-- The FFI enum `CameraStorageFilesystemType` of the wrapped library. -/
inductive CameraStorageFilesystemType where
  | GP_STORAGEINFO_FST_UNDEFINED
  | GP_STORAGEINFO_FST_GENERICFLAT
  | GP_STORAGEINFO_FST_GENERICHIERARCHICAL
  | GP_STORAGEINFO_FST_DCF
deriving DecidableEq, Repr

/-- The FFI enum `CameraStorageAccessType` of the wrapped library. -/
inductive CameraStorageAccessType where
  | GP_STORAGEINFO_AC_READWRITE
  | GP_STORAGEINFO_AC_READONLY
  | GP_STORAGEINFO_AC_READONLY_WITH_DELETE
deriving DecidableEq, Repr

/-- The C struct `CameraStorageInformation` delivered by the wrapped library. -/
structure CameraStorageInformation where
  fields : Nat
  basedir : List Nat
  label : List Nat
  description : List Nat
  storage_type : CameraStorageType
  fstype : CameraStorageFilesystemType
  access : CameraStorageAccessType
  capacitykbytes : Nat
  freekbytes : Nat
  freeimages : Nat
deriving DecidableEq, Repr

/-- `StorageType` from src/storage.rs. -/
inductive StorageType where
  | FixedRom
  | RemovableRom
  | FixedRam
  | RemoveableRam
  | Unknown
deriving DecidableEq, Repr

/-- `FilesystemType` from src/storage.rs. -/
inductive FilesystemType where
  | Flat
  | Hierarchical
  | DCF
  | Unknown
deriving DecidableEq, Repr

/-- `AccessType` from src/storage.rs.  Note: it has no Unknown/Other variant. -/
inductive AccessType where
  | ReadWrite
  | ReadDelete
  | ReadOnly
deriving DecidableEq, Repr

/-- `Storage` from src/storage.rs: wraps the native struct. -/
structure Storage where
  inner : CameraStorageInformation
deriving DecidableEq, Repr

/-- The match inside `Storage::storage_type` (src/storage.rs), over the FFI
enum carried by the struct slot. -/
def decodeStorageType : CameraStorageType → StorageType
  | .GP_STORAGEINFO_ST_FIXED_ROM => StorageType.FixedRom
  | .GP_STORAGEINFO_ST_REMOVABLE_ROM => StorageType.RemovableRom
  | .GP_STORAGEINFO_ST_FIXED_RAM => StorageType.FixedRam
  | .GP_STORAGEINFO_ST_REMOVABLE_RAM => StorageType.RemoveableRam
  | .GP_STORAGEINFO_ST_UNKNOWN => StorageType.Unknown

/-- The match inside `Storage::filesystem_type` (src/storage.rs). -/
def decodeFilesystemType : CameraStorageFilesystemType → FilesystemType
  | .GP_STORAGEINFO_FST_GENERICFLAT => FilesystemType.Flat
  | .GP_STORAGEINFO_FST_GENERICHIERARCHICAL => FilesystemType.Hierarchical
  | .GP_STORAGEINFO_FST_DCF => FilesystemType.DCF
  | .GP_STORAGEINFO_FST_UNDEFINED => FilesystemType.Unknown

/-- The match inside `Storage::access_type` (src/storage.rs). -/
def decodeAccessType : CameraStorageAccessType → AccessType
  | .GP_STORAGEINFO_AC_READWRITE => AccessType.ReadWrite
  | .GP_STORAGEINFO_AC_READONLY => AccessType.ReadOnly
  | .GP_STORAGEINFO_AC_READONLY_WITH_DELETE => AccessType.ReadDelete

/-- `Storage::base_dir` from src/storage.rs. -/
def Storage.base_dir (s : Storage) : Option (List Nat) :=
  if s.inner.fields &&& GP_STORAGEINFO_BASE ≠ 0 then
    some (utf8Lossy (cstr s.inner.basedir))
  else none

/-- `Storage::label` from src/storage.rs. -/
def Storage.label (s : Storage) : Option (List Nat) :=
  if s.inner.fields &&& GP_STORAGEINFO_LABEL ≠ 0 then
    some (utf8Lossy (cstr s.inner.label))
  else none

/-- `Storage::description` from src/storage.rs. -/
def Storage.description (s : Storage) : Option (List Nat) :=
  if s.inner.fields &&& GP_STORAGEINFO_DESCRIPTION ≠ 0 then
    some (utf8Lossy (cstr s.inner.description))
  else none

/-- `Storage::storage_type` from src/storage.rs. -/
def Storage.storage_type (s : Storage) : Option StorageType :=
  if s.inner.fields &&& GP_STORAGEINFO_STORAGETYPE ≠ 0 then
    some (decodeStorageType s.inner.storage_type)
  else none

/-- `Storage::filesystem_type` from src/storage.rs. -/
def Storage.filesystem_type (s : Storage) : Option FilesystemType :=
  if s.inner.fields &&& GP_STORAGEINFO_FILESYSTEMTYPE ≠ 0 then
    some (decodeFilesystemType s.inner.fstype)
  else none

/-- `Storage::access_type` from src/storage.rs. -/
def Storage.access_type (s : Storage) : Option AccessType :=
  if s.inner.fields &&& GP_STORAGEINFO_ACCESS ≠ 0 then
    some (decodeAccessType s.inner.access)
  else none

/-- `Storage::capacity_kbytes` from src/storage.rs. -/
def Storage.capacity_kbytes (s : Storage) : Option Nat :=
  if s.inner.fields &&& GP_STORAGEINFO_MAXCAPACITY ≠ 0 then
    some s.inner.capacitykbytes
  else none

/-- `Storage::free_kbytes` from src/storage.rs. -/
def Storage.free_kbytes (s : Storage) : Option Nat :=
  if s.inner.fields &&& GP_STORAGEINFO_FREESPACEKBYTES ≠ 0 then
    some s.inner.freekbytes
  else none

/-- `Storage::free_images` from src/storage.rs. -/
def Storage.free_images (s : Storage) : Option Nat :=
  if s.inner.fields &&& GP_STORAGEINFO_FREESPACEIMAGES ≠ 0 then
    some s.inner.freeimages
  else none

/-- Claim C2: for each of the nine optional Storage fields independently, the
accessor returns `none` whenever the corresponding presence bit of the
`fields` bitmask is unset — regardless of the contents of the underlying
slot — and returns `some` of the decoded value whenever that bit is set. -/
theorem C2_storage_presence_bits (s : Storage) :
    ((s.inner.fields &&& GP_STORAGEINFO_BASE = 0 → s.base_dir = none)
      ∧ (s.inner.fields &&& GP_STORAGEINFO_BASE ≠ 0 →
          s.base_dir = some (utf8Lossy (cstr s.inner.basedir))))
    ∧ ((s.inner.fields &&& GP_STORAGEINFO_LABEL = 0 → s.label = none)
      ∧ (s.inner.fields &&& GP_STORAGEINFO_LABEL ≠ 0 →
          s.label = some (utf8Lossy (cstr s.inner.label))))
    ∧ ((s.inner.fields &&& GP_STORAGEINFO_DESCRIPTION = 0 → s.description = none)
      ∧ (s.inner.fields &&& GP_STORAGEINFO_DESCRIPTION ≠ 0 →
          s.description = some (utf8Lossy (cstr s.inner.description))))
    ∧ ((s.inner.fields &&& GP_STORAGEINFO_STORAGETYPE = 0 → s.storage_type = none)
      ∧ (s.inner.fields &&& GP_STORAGEINFO_STORAGETYPE ≠ 0 →
          s.storage_type = some (decodeStorageType s.inner.storage_type)))
    ∧ ((s.inner.fields &&& GP_STORAGEINFO_FILESYSTEMTYPE = 0 → s.filesystem_type = none)
      ∧ (s.inner.fields &&& GP_STORAGEINFO_FILESYSTEMTYPE ≠ 0 →
          s.filesystem_type = some (decodeFilesystemType s.inner.fstype)))
    ∧ ((s.inner.fields &&& GP_STORAGEINFO_ACCESS = 0 → s.access_type = none)
      ∧ (s.inner.fields &&& GP_STORAGEINFO_ACCESS ≠ 0 →
          s.access_type = some (decodeAccessType s.inner.access)))
    ∧ ((s.inner.fields &&& GP_STORAGEINFO_MAXCAPACITY = 0 → s.capacity_kbytes = none)
      ∧ (s.inner.fields &&& GP_STORAGEINFO_MAXCAPACITY ≠ 0 →
          s.capacity_kbytes = some s.inner.capacitykbytes))
    ∧ ((s.inner.fields &&& GP_STORAGEINFO_FREESPACEKBYTES = 0 → s.free_kbytes = none)
      ∧ (s.inner.fields &&& GP_STORAGEINFO_FREESPACEKBYTES ≠ 0 →
          s.free_kbytes = some s.inner.freekbytes))
    ∧ ((s.inner.fields &&& GP_STORAGEINFO_FREESPACEIMAGES = 0 → s.free_images = none)
      ∧ (s.inner.fields &&& GP_STORAGEINFO_FREESPACEIMAGES ≠ 0 →
          s.free_images = some s.inner.freeimages)) := by
  refine ⟨⟨?_, ?_⟩, ⟨?_, ?_⟩, ⟨?_, ?_⟩, ⟨?_, ?_⟩, ⟨?_, ?_⟩, ⟨?_, ?_⟩, ⟨?_, ?_⟩, ⟨?_, ?_⟩, ⟨?_, ?_⟩⟩
    <;> intro h
    <;> simp [Storage.base_dir, Storage.label, Storage.description, Storage.storage_type,
          Storage.filesystem_type, Storage.access_type, Storage.capacity_kbytes,
          Storage.free_kbytes, Storage.free_images, h]

/-- A concrete storage snapshot for the C2 witness: only the label and
capacity presence bits are set, while every slot holds data. -/
def demoStorage : Storage :=
  { inner :=
    { fields := GP_STORAGEINFO_LABEL ||| GP_STORAGEINFO_MAXCAPACITY
      basedir := [47, 97]
      label := [78, 49]
      description := [100]
      storage_type := CameraStorageType.GP_STORAGEINFO_ST_REMOVABLE_RAM
      fstype := CameraStorageFilesystemType.GP_STORAGEINFO_FST_DCF
      access := CameraStorageAccessType.GP_STORAGEINFO_AC_READONLY
      capacitykbytes := 31154688
      freekbytes := 30833088
      freeimages := 580 } }

/-- Witness for C2: on `demoStorage` the unset base-directory bit yields
`none` while the set label bit yields the decoded label. -/
theorem C2_witness :
    demoStorage.base_dir = none ∧ demoStorage.label = some (utf8Lossy (cstr [78, 49])) :=
  ⟨(C2_storage_presence_bits demoStorage).1.1 (by decide),
   (C2_storage_presence_bits demoStorage).2.1.2 (by decide)⟩

end Gphoto

namespace Gphoto

/-! ## Ports and abilities (src/port.rs, src/abilities.rs) -/

/-- Native port type constants (`GPPortType` of the wrapped library; also
used as bits of the `CameraAbilities.port` bitmask). -/
def GP_PORT_NONE : Nat := 0
def GP_PORT_SERIAL : Nat := 1
def GP_PORT_USB : Nat := 4
def GP_PORT_DISK : Nat := 8
def GP_PORT_PTPIP : Nat := 16
def GP_PORT_USB_DISK_DIRECT : Nat := 32
def GP_PORT_USB_SCSI : Nat := 64

/-- Native camera operation bits (`CameraOperation` of the wrapped library). -/
def GP_OPERATION_CONFIG : Nat := 1
def GP_OPERATION_CAPTURE_IMAGE : Nat := 2
def GP_OPERATION_CAPTURE_VIDEO : Nat := 4
def GP_OPERATION_CAPTURE_AUDIO_BIT : Nat := 8
def GP_OPERATION_CAPTURE_PREVIEW : Nat := 16
def GP_OPERATION_TRIGGER_CAPTURE : Nat := 32

/-- Native file operation bits (`CameraFileOperation` of the wrapped library). -/
def GP_FILE_OPERATION_DELETE : Nat := 2
def GP_FILE_OPERATION_PREVIEW : Nat := 8
def GP_FILE_OPERATION_RAW : Nat := 16
def GP_FILE_OPERATION_AUDIO_BIT : Nat := 32
def GP_FILE_OPERATION_EXIF : Nat := 64

/-- Native folder operation bits (`CameraFolderOperation` of the wrapped
library). -/
def GP_FOLDER_OPERATION_DELETE_ALL : Nat := 1
def GP_FOLDER_OPERATION_PUT_FILE : Nat := 2
def GP_FOLDER_OPERATION_MAKE_DIR : Nat := 4
def GP_FOLDER_OPERATION_REMOVE_DIR : Nat := 8

/-- `PortType` from src/port.rs. -/
inductive PortType where
  | Serial
  | USB
  | Disk
  | PTPIP
  | Direct
  | SCSI
  | Other
deriving DecidableEq, Repr

/-- `CameraOperation` from src/abilities.rs. -/
inductive CameraOperation where
  | Config
  | CaptureImage
  | CaptureVideo
  | CaptureAudio
  | CapturePreview
  | TriggerCapture
deriving DecidableEq, Repr

/-- `FileOperation` from src/abilities.rs. -/
inductive FileOperation where
  | Delete
  | Preview
  | Raw
  | Audio
  | EXIF
deriving DecidableEq, Repr

/-- `FolderOperation` from src/abilities.rs. -/
inductive FolderOperation where
  | DeleteAll
  | PutFile
  | MakeDirectory
  | RemoveDirectory
deriving DecidableEq, Repr

/-- The C struct `CameraAbilities` delivered by the wrapped library (the
fields exercised by the binding accessors under verification). -/
structure CameraAbilities where
  model : List Nat
  port : Nat
  speed : List Nat
  operations : Nat
  file_operations : Nat
  folder_operations : Nat
  usb_vendor : Nat
  usb_product : Nat
deriving DecidableEq, Repr

/-- `Abilities` from src/abilities.rs: wraps the native struct. -/
structure Abilities where
  inner : CameraAbilities
deriving DecidableEq, Repr

/-- One step of the bitmask-to-set decoding pattern that every decoder in
src/abilities.rs repeats: test one bit of the mask and insert the matching
tag into the accumulating set when it is set.  The association list below
each decoder transcribes its if-insert sequence in source order. -/
def decodeFlags {α : Type} [DecidableEq α] (mask : Nat) : List (Nat × α) → Finset α
  | [] => ∅
  | (bit, tag) :: rest =>
    let s := decodeFlags mask rest
    if mask &&& bit ≠ 0 then insert tag s else s

/-- `Abilities::model` from src/abilities.rs (lossy C-string decoding). -/
def Abilities.model (a : Abilities) : List Nat := utf8Lossy (cstr a.inner.model)

/-- `Abilities::port_types` from src/abilities.rs. -/
def Abilities.port_types (a : Abilities) : Finset PortType :=
  decodeFlags a.inner.port
    [(GP_PORT_SERIAL, PortType.Serial), (GP_PORT_USB, PortType.USB),
     (GP_PORT_DISK, PortType.Disk), (GP_PORT_PTPIP, PortType.PTPIP),
     (GP_PORT_USB_DISK_DIRECT, PortType.Direct), (GP_PORT_USB_SCSI, PortType.SCSI)]

/-- `Abilities::speeds` from src/abilities.rs: the speed array terminates at
the first zero entry. -/
def Abilities.speeds (a : Abilities) : List Nat :=
  a.inner.speed.takeWhile (fun n => n != 0)

/-- `Abilities::camera_operations` from src/abilities.rs. -/
def Abilities.camera_operations (a : Abilities) : Finset CameraOperation :=
  decodeFlags a.inner.operations
    [(GP_OPERATION_CONFIG, CameraOperation.Config),
     (GP_OPERATION_CAPTURE_IMAGE, CameraOperation.CaptureImage),
     (GP_OPERATION_CAPTURE_VIDEO, CameraOperation.CaptureVideo),
     (GP_OPERATION_CAPTURE_AUDIO_BIT, CameraOperation.CaptureAudio),
     (GP_OPERATION_CAPTURE_PREVIEW, CameraOperation.CapturePreview),
     (GP_OPERATION_TRIGGER_CAPTURE, CameraOperation.TriggerCapture)]

/-- `Abilities::file_operations` from src/abilities.rs. -/
def Abilities.file_operations (a : Abilities) : Finset FileOperation :=
  decodeFlags a.inner.file_operations
    [(GP_FILE_OPERATION_DELETE, FileOperation.Delete),
     (GP_FILE_OPERATION_PREVIEW, FileOperation.Preview),
     (GP_FILE_OPERATION_RAW, FileOperation.Raw),
     (GP_FILE_OPERATION_AUDIO_BIT, FileOperation.Audio),
     (GP_FILE_OPERATION_EXIF, FileOperation.EXIF)]

/-- `Abilities::folder_operations` from src/abilities.rs. -/
def Abilities.folder_operations (a : Abilities) : Finset FolderOperation :=
  decodeFlags a.inner.folder_operations
    [(GP_FOLDER_OPERATION_DELETE_ALL, FolderOperation.DeleteAll),
     (GP_FOLDER_OPERATION_PUT_FILE, FolderOperation.PutFile),
     (GP_FOLDER_OPERATION_MAKE_DIR, FolderOperation.MakeDirectory),
     (GP_FOLDER_OPERATION_REMOVE_DIR, FolderOperation.RemoveDirectory)]

/-- Setting further bits never clears a bit that was already set. -/
theorem land_ne_zero_of_lor {m b c : Nat} (h : m &&& c ≠ 0) : (m ||| b) &&& c ≠ 0 := by
  intro h0
  apply h
  apply Nat.eq_of_testBit_eq
  intro i
  have hz := congrArg (fun n => n.testBit i) h0
  simp only [Nat.testBit_and, Nat.testBit_or, Nat.zero_testBit] at hz ⊢
  cases hm : m.testBit i <;> cases hc : c.testBit i <;> simp_all

/-- Monotonicity of the if-insert decoding pattern in the bitmask. -/
theorem decodeFlags_mono {α : Type} [DecidableEq α] (m b : Nat) :
    ∀ l : List (Nat × α), decodeFlags m l ⊆ decodeFlags (m ||| b) l := by
  intro l
  induction l with
  | nil => simp [decodeFlags]
  | cons p rest ih =>
    obtain ⟨bit, tag⟩ := p
    simp only [decodeFlags]
    by_cases h : m &&& bit ≠ 0
    · simp only [h, if_pos, land_ne_zero_of_lor h, ne_eq, not_false_iff]
      exact Finset.insert_subset_insert _ ih
    · simp only [h, if_neg, if_false]
      by_cases h2 : (m ||| b) &&& bit ≠ 0
      · simp only [h2, if_pos, ne_eq, not_false_iff]
        exact ih.trans (Finset.subset_insert _ _)
      · simp only [h2, if_neg, if_false]
        exact ih

/-- The all-zero bitmask decodes to the empty set. -/
theorem decodeFlags_zero {α : Type} [DecidableEq α] :
    ∀ l : List (Nat × α), decodeFlags 0 l = ∅ := by
  intro l
  induction l with
  | nil => rfl
  | cons p rest ih =>
    obtain ⟨bit, tag⟩ := p
    simp [decodeFlags, Nat.zero_and, ih]

/-- Claim C7: the four bitmask decoders are monotonic in the input bitmask —
every flag decoded from mask `m` is still decoded after any further bits `b`
are set — and the all-zero bitmask decodes to the empty set. -/
theorem C7_bitmask_decoders_monotone (a : CameraAbilities) (b : Nat) :
    (Abilities.port_types ⟨a⟩ ⊆ Abilities.port_types ⟨{ a with port := a.port ||| b }⟩
      ∧ Abilities.port_types ⟨{ a with port := 0 }⟩ = ∅)
    ∧ (Abilities.camera_operations ⟨a⟩ ⊆
          Abilities.camera_operations ⟨{ a with operations := a.operations ||| b }⟩
      ∧ Abilities.camera_operations ⟨{ a with operations := 0 }⟩ = ∅)
    ∧ (Abilities.file_operations ⟨a⟩ ⊆
          Abilities.file_operations ⟨{ a with file_operations := a.file_operations ||| b }⟩
      ∧ Abilities.file_operations ⟨{ a with file_operations := 0 }⟩ = ∅)
    ∧ (Abilities.folder_operations ⟨a⟩ ⊆
          Abilities.folder_operations ⟨{ a with folder_operations := a.folder_operations ||| b }⟩
      ∧ Abilities.folder_operations ⟨{ a with folder_operations := 0 }⟩ = ∅) :=
  ⟨⟨decodeFlags_mono _ _ _, decodeFlags_zero _⟩,
   ⟨decodeFlags_mono _ _ _, decodeFlags_zero _⟩,
   ⟨decodeFlags_mono _ _ _, decodeFlags_zero _⟩,
   ⟨decodeFlags_mono _ _ _, decodeFlags_zero _⟩⟩

/-- A concrete abilities snapshot for the C7 witness. -/
def demoAbilities : CameraAbilities :=
  { model := [78, 105, 107, 111, 110]
    port := GP_PORT_USB
    speed := []
    operations := GP_OPERATION_CONFIG ||| GP_OPERATION_CAPTURE_IMAGE
    file_operations := GP_FILE_OPERATION_DELETE
    folder_operations := 0
    usb_vendor := 1200
    usb_product := 1079 }

/-- Witness for C7 at a concrete snapshot and added bit. -/
theorem C7_witness :
    Abilities.port_types ⟨demoAbilities⟩ ⊆
        Abilities.port_types ⟨{ demoAbilities with port := demoAbilities.port ||| GP_PORT_SERIAL }⟩
      ∧ Abilities.port_types ⟨{ demoAbilities with port := 0 }⟩ = ∅ :=
  (C7_bitmask_decoders_monotone demoAbilities GP_PORT_SERIAL).1

/-- The borrowed `Port` view from src/port.rs: the port type code and the
name and path buffers obtained from the `GPPortInfo` getters. -/
structure Port where
  port_type_code : Nat
  nameBuf : List Nat
  pathBuf : List Nat
deriving DecidableEq, Repr

/-- `Port::port_type` from src/port.rs, over the raw C integer value of the
native port type: the match ends in the wildcard arm
`GP_PORT_NONE | _ => PortType::Other`, so it is total. -/
def Port.port_type (p : Port) : PortType :=
  if p.port_type_code = GP_PORT_SERIAL then PortType.Serial
  else if p.port_type_code = GP_PORT_USB then PortType.USB
  else if p.port_type_code = GP_PORT_DISK then PortType.Disk
  else if p.port_type_code = GP_PORT_PTPIP then PortType.PTPIP
  else if p.port_type_code = GP_PORT_USB_DISK_DIRECT then PortType.Direct
  else if p.port_type_code = GP_PORT_USB_SCSI then PortType.SCSI
  else PortType.Other

/-- `Port::name` from src/port.rs (lossy C-string decoding). -/
def Port.name (p : Port) : List Nat := utf8Lossy (cstr p.nameBuf)

/-- `Port.path` from src/port.rs (lossy C-string decoding). -/
def Port.path (p : Port) : List Nat := utf8Lossy (cstr p.pathBuf)

/-! ## Raw type-code decoding (C8)

At the C ABI level the storage, filesystem, and access type slots carry
plain integers.  The functions below replay the match arms of the
src/storage.rs accessors over that raw integer domain; `none` marks a value
that no match arm covers (the matches in src/storage.rs carry no wildcard
arm — they are exhaustive only over the declared FFI enumerators).
The raw integer values of the FFI enumerators follow the wrapped library
headers. -/

def GP_STORAGEINFO_ST_UNKNOWN_CODE : Nat := 0
def GP_STORAGEINFO_ST_FIXED_ROM_CODE : Nat := 1
def GP_STORAGEINFO_ST_REMOVABLE_ROM_CODE : Nat := 2
def GP_STORAGEINFO_ST_FIXED_RAM_CODE : Nat := 3
def GP_STORAGEINFO_ST_REMOVABLE_RAM_CODE : Nat := 4

def GP_STORAGEINFO_FST_UNDEFINED_CODE : Nat := 0
def GP_STORAGEINFO_FST_GENERICFLAT_CODE : Nat := 1
def GP_STORAGEINFO_FST_GENERICHIERARCHICAL_CODE : Nat := 2
def GP_STORAGEINFO_FST_DCF_CODE : Nat := 3

def GP_STORAGEINFO_AC_READWRITE_CODE : Nat := 0
def GP_STORAGEINFO_AC_READONLY_CODE : Nat := 1
def GP_STORAGEINFO_AC_READONLY_WITH_DELETE_CODE : Nat := 2

/-- The `Storage::storage_type` match arms over the raw C integer. -/
def storageTypeFromCode (v : Nat) : Option StorageType :=
  if v = GP_STORAGEINFO_ST_FIXED_ROM_CODE then some StorageType.FixedRom
  else if v = GP_STORAGEINFO_ST_REMOVABLE_ROM_CODE then some StorageType.RemovableRom
  else if v = GP_STORAGEINFO_ST_FIXED_RAM_CODE then some StorageType.FixedRam
  else if v = GP_STORAGEINFO_ST_REMOVABLE_RAM_CODE then some StorageType.RemoveableRam
  else if v = GP_STORAGEINFO_ST_UNKNOWN_CODE then some StorageType.Unknown
  else none

/-- The `Storage::filesystem_type` match arms over the raw C integer. -/
def filesystemTypeFromCode (v : Nat) : Option FilesystemType :=
  if v = GP_STORAGEINFO_FST_GENERICFLAT_CODE then some FilesystemType.Flat
  else if v = GP_STORAGEINFO_FST_GENERICHIERARCHICAL_CODE then some FilesystemType.Hierarchical
  else if v = GP_STORAGEINFO_FST_DCF_CODE then some FilesystemType.DCF
  else if v = GP_STORAGEINFO_FST_UNDEFINED_CODE then some FilesystemType.Unknown
  else none

/-- The `Storage::access_type` match arms over the raw C integer. -/
def accessTypeFromCode (v : Nat) : Option AccessType :=
  if v = GP_STORAGEINFO_AC_READWRITE_CODE then some AccessType.ReadWrite
  else if v = GP_STORAGEINFO_AC_READONLY_CODE then some AccessType.ReadOnly
  else if v = GP_STORAGEINFO_AC_READONLY_WITH_DELETE_CODE then some AccessType.ReadDelete
  else none

/-- Counterexample for C8: the access-type value 3 is not one of the three
recognized access constants, yet the access-type decoder does not return an
Unknown/Other catch-all — no match arm covers it at all (`AccessType` has no
such variant), contradicting the claim as stated. -/
theorem C8_counterexample :
    ((3 : Nat) ≠ GP_STORAGEINFO_AC_READWRITE_CODE
      ∧ (3 : Nat) ≠ GP_STORAGEINFO_AC_READONLY_CODE
      ∧ (3 : Nat) ≠ GP_STORAGEINFO_AC_READONLY_WITH_DELETE_CODE)
    ∧ accessTypeFromCode 3 = none
    ∧ (∀ k : AccessType, accessTypeFromCode 3 ≠ some k) := by
  refine ⟨by decide, by decide, ?_⟩
  intro k
  cases k <;> decide

/-- C8 as amended: only the port-type decoder has a genuine wildcard
catch-all — every unrecognized port code maps to `Other`.  The storage-type
and filesystem-type decoders map only the explicit library catch-all
constants (`ST_UNKNOWN`, `FST_UNDEFINED`) to their `Unknown` variant and
cover no other unrecognized value, and the access-type decoder covers
exactly the three declared access constants, with no catch-all variant. -/
theorem C8_amended_type_decoders :
    (∀ v : Nat,
      v ∉ [GP_PORT_SERIAL, GP_PORT_USB, GP_PORT_DISK, GP_PORT_PTPIP,
           GP_PORT_USB_DISK_DIRECT, GP_PORT_USB_SCSI] →
      ∀ buf1 buf2 : List Nat, Port.port_type ⟨v, buf1, buf2⟩ = PortType.Other)
    ∧ storageTypeFromCode GP_STORAGEINFO_ST_UNKNOWN_CODE = some StorageType.Unknown
    ∧ filesystemTypeFromCode GP_STORAGEINFO_FST_UNDEFINED_CODE = some FilesystemType.Unknown
    ∧ (∀ v : Nat,
      v ∉ [GP_STORAGEINFO_ST_UNKNOWN_CODE, GP_STORAGEINFO_ST_FIXED_ROM_CODE,
           GP_STORAGEINFO_ST_REMOVABLE_ROM_CODE, GP_STORAGEINFO_ST_FIXED_RAM_CODE,
           GP_STORAGEINFO_ST_REMOVABLE_RAM_CODE] →
      storageTypeFromCode v = none)
    ∧ (∀ v : Nat,
      v ∉ [GP_STORAGEINFO_FST_UNDEFINED_CODE, GP_STORAGEINFO_FST_GENERICFLAT_CODE,
           GP_STORAGEINFO_FST_GENERICHIERARCHICAL_CODE, GP_STORAGEINFO_FST_DCF_CODE] →
      filesystemTypeFromCode v = none)
    ∧ (∀ v : Nat,
      v ∉ [GP_STORAGEINFO_AC_READWRITE_CODE, GP_STORAGEINFO_AC_READONLY_CODE,
           GP_STORAGEINFO_AC_READONLY_WITH_DELETE_CODE] →
      accessTypeFromCode v = none) := by
  refine ⟨?_, by decide, by decide, ?_, ?_, ?_⟩
  · intro v hv buf1 buf2
    simp only [List.mem_cons, List.not_mem_nil, or_false] at hv
    push_neg at hv
    obtain ⟨h1, h2, h3, h4, h5, h6⟩ := hv
    simp [Port.port_type, h1, h2, h3, h4, h5, h6]
  · intro v hv
    simp only [List.mem_cons, List.not_mem_nil, or_false] at hv
    push_neg at hv
    obtain ⟨h1, h2, h3, h4, h5⟩ := hv
    simp [storageTypeFromCode, h1, h2, h3, h4, h5]
  · intro v hv
    simp only [List.mem_cons, List.not_mem_nil, or_false] at hv
    push_neg at hv
    obtain ⟨h1, h2, h3, h4⟩ := hv
    simp [filesystemTypeFromCode, h1, h2, h3, h4]
  · intro v hv
    simp only [List.mem_cons, List.not_mem_nil, or_false] at hv
    push_neg at hv
    obtain ⟨h1, h2, h3⟩ := hv
    simp [accessTypeFromCode, h1, h2, h3]

/-- Witness for the amended C8: the unrecognized port code 2 decodes to
`Other`, and the unrecognized storage code 9 reaches no match arm. -/
theorem C8_amended_witness :
    Port.port_type ⟨2, [], []⟩ = PortType.Other ∧ storageTypeFromCode 9 = none :=
  ⟨C8_amended_type_decoders.1 2 (by decide) [] [],
   C8_amended_type_decoders.2.2.2.1 9 (by decide)⟩

end Gphoto

namespace Gphoto

/-! ## Camera text buffers (src/camera.rs) -/

/-- `util::camera_text_to_string` from src/camera.rs: strict UTF-8
validation of the `CameraText` buffer; invalid bytes map to a
`CorruptedData` error instead of a replacement-character substitution. -/
def camera_text_to_string (text : List Nat) : Except Error (List Nat) :=
  match utf8Decode (cstr text) with
  | some cps => Except.ok cps
  | none => Except.error (from_libgphoto2 GP_ERROR_CORRUPTED_DATA)

/-- `Camera::summary` from src/camera.rs: a failing native call
short-circuits, a successful one funnels the text buffer through
`camera_text_to_string`. -/
def Camera.summary (getResult : Int) (text : List Nat) : Except Error (List Nat) :=
  if getResult = GP_OK then camera_text_to_string text
  else Except.error (from_libgphoto2 getResult)

/-- `Camera::manual` from src/camera.rs. -/
def Camera.manual (getResult : Int) (text : List Nat) : Except Error (List Nat) :=
  if getResult = GP_OK then camera_text_to_string text
  else Except.error (from_libgphoto2 getResult)

/-- `Camera::about_driver` from src/camera.rs. -/
def Camera.about_driver (getResult : Int) (text : List Nat) : Except Error (List Nat) :=
  if getResult = GP_OK then camera_text_to_string text
  else Except.error (from_libgphoto2 getResult)

/-- Claim C6: every C-string buffer exposed through the public API
(abilities model, port name and path, storage base directory, label,
description) is decoded lossily — it reproduces strict decoding on valid
bytes and substitutes the replacement character instead of failing on
invalid bytes — while the summary, manual and about-driver texts are
validated strictly and fail with a `CorruptedData` error on invalid bytes. -/
theorem C6_lossy_and_strict_decoding (a : Abilities) (p : Port) (s : Storage)
    (g : Int) (t : List Nat) :
    ((∀ cps, utf8Decode (cstr a.inner.model) = some cps → a.model = cps)
      ∧ (utf8Decode (cstr a.inner.model) = none → replacementChar ∈ a.model))
    ∧ ((∀ cps, utf8Decode (cstr p.nameBuf) = some cps → p.name = cps)
      ∧ (utf8Decode (cstr p.nameBuf) = none → replacementChar ∈ p.name))
    ∧ ((∀ cps, utf8Decode (cstr p.pathBuf) = some cps → p.path = cps)
      ∧ (utf8Decode (cstr p.pathBuf) = none → replacementChar ∈ p.path))
    ∧ (s.inner.fields &&& GP_STORAGEINFO_BASE ≠ 0 →
        (∀ cps, utf8Decode (cstr s.inner.basedir) = some cps → s.base_dir = some cps)
        ∧ (utf8Decode (cstr s.inner.basedir) = none →
            ∃ l, s.base_dir = some l ∧ replacementChar ∈ l))
    ∧ (s.inner.fields &&& GP_STORAGEINFO_LABEL ≠ 0 →
        (∀ cps, utf8Decode (cstr s.inner.label) = some cps → s.label = some cps)
        ∧ (utf8Decode (cstr s.inner.label) = none →
            ∃ l, s.label = some l ∧ replacementChar ∈ l))
    ∧ (s.inner.fields &&& GP_STORAGEINFO_DESCRIPTION ≠ 0 →
        (∀ cps, utf8Decode (cstr s.inner.description) = some cps → s.description = some cps)
        ∧ (utf8Decode (cstr s.inner.description) = none →
            ∃ l, s.description = some l ∧ replacementChar ∈ l))
    ∧ ((∀ cps, utf8Decode (cstr t) = some cps → camera_text_to_string t = Except.ok cps)
      ∧ (utf8Decode (cstr t) = none →
          camera_text_to_string t = Except.error (from_libgphoto2 GP_ERROR_CORRUPTED_DATA)
          ∧ (from_libgphoto2 GP_ERROR_CORRUPTED_DATA).kind = ErrorKind.CorruptedData))
    ∧ (g = GP_OK → Camera.summary g t = camera_text_to_string t
        ∧ Camera.manual g t = camera_text_to_string t
        ∧ Camera.about_driver g t = camera_text_to_string t) := by
  refine ⟨⟨?_, ?_⟩, ⟨?_, ?_⟩, ⟨?_, ?_⟩, ?_, ?_, ?_, ⟨?_, ?_⟩, ?_⟩
  · intro cps h; exact utf8Lossy_eq_of_utf8Decode h
  · intro h; exact replacement_mem_utf8Lossy h
  · intro cps h; exact utf8Lossy_eq_of_utf8Decode h
  · intro h; exact replacement_mem_utf8Lossy h
  · intro cps h; exact utf8Lossy_eq_of_utf8Decode h
  · intro h; exact replacement_mem_utf8Lossy h
  · intro hbit
    refine ⟨fun cps h => ?_, fun h => ?_⟩
    · simp [Storage.base_dir, hbit, utf8Lossy_eq_of_utf8Decode h]
    · exact ⟨utf8Lossy (cstr s.inner.basedir),
        by simp [Storage.base_dir, hbit], replacement_mem_utf8Lossy h⟩
  · intro hbit
    refine ⟨fun cps h => ?_, fun h => ?_⟩
    · simp [Storage.label, hbit, utf8Lossy_eq_of_utf8Decode h]
    · exact ⟨utf8Lossy (cstr s.inner.label),
        by simp [Storage.label, hbit], replacement_mem_utf8Lossy h⟩
  · intro hbit
    refine ⟨fun cps h => ?_, fun h => ?_⟩
    · simp [Storage.description, hbit, utf8Lossy_eq_of_utf8Decode h]
    · exact ⟨utf8Lossy (cstr s.inner.description),
        by simp [Storage.description, hbit], replacement_mem_utf8Lossy h⟩
  · intro cps h; simp [camera_text_to_string, h]
  · intro h; refine ⟨by simp [camera_text_to_string, h], by decide⟩
  · intro h
    exact ⟨by simp [Camera.summary, h], by simp [Camera.manual, h],
      by simp [Camera.about_driver, h]⟩

/-- Witness for C6: on the invalid byte 0xFF the model decodes to a
replacement character while the camera text conversion reports
`CorruptedData`. -/
theorem C6_witness :
    replacementChar ∈ Abilities.model ⟨{ demoAbilities with model := [0xFF] }⟩
    ∧ camera_text_to_string [0xFF] = Except.error (from_libgphoto2 GP_ERROR_CORRUPTED_DATA) :=
  ⟨(C6_lossy_and_strict_decoding ⟨{ demoAbilities with model := [0xFF] }⟩
      ⟨0, [], []⟩ demoStorage 0 [0xFF]).1.2 (by decide),
   ((C6_lossy_and_strict_decoding ⟨{ demoAbilities with model := [0xFF] }⟩
      ⟨0, [], []⟩ demoStorage 0 [0xFF]).2.2.2.2.2.2.1.2 (by decide)).1⟩

end Gphoto

namespace Gphoto

/-! ## Library version metadata (src/version.rs)

The input models the NULL-terminated table of C strings returned by
`gp_library_version`: one `List Nat` buffer per non-NULL entry, so
`table.length` is the scanned length `len`.  `none` models the
`assert!(len >= 5)` panic — an unrecoverable contract violation,
not a returned error value.
-/

/-- `LibraryVersion` from src/version.rs: five strings captured from the
first five table entries (kept as raw bytes, as the source reads them with
`from_utf8_unchecked`). -/
structure LibraryVersion where
  version : List Nat
  camlibs : List Nat
  compiler : List Nat
  ltdl : List Nat
  exif : List Nat
deriving DecidableEq, Repr

/-- `LibraryVersion::new` from src/version.rs. -/
def LibraryVersion.new (table : List (List Nat)) : Option LibraryVersion :=
  if 5 ≤ table.length then
    some { version := cstr (table.getD 0 [])
           camlibs := cstr (table.getD 1 [])
           compiler := cstr (table.getD 2 [])
           ltdl := cstr (table.getD 3 [])
           exif := cstr (table.getD 4 []) }
  else none

/-- Counterexample for C9: a five-entry table whose first entry is the empty
C string passes the length assertion and yields a `LibraryVersion` whose
`version` string is empty — the claim that all five returned strings are
non-empty fails at this input. -/
theorem C9_counterexample :
    LibraryVersion.new [[], [120], [121], [122], [123]]
      = some { version := [], camlibs := [120], compiler := [121], ltdl := [122], exif := [123] }
    ∧ (LibraryVersion.mk [] [120] [121] [122] [123]).version = [] := by
  constructor <;> decide

/-- C9 as amended: when the native version table has length at least 5, the
query returns exactly the five strings read from the first five table
entries (their non-emptiness is not validated); a table shorter than 5 is an
assertion failure (panic), not a returned error value. -/
theorem C9_amended_version_table (table : List (List Nat)) :
    (5 ≤ table.length →
      LibraryVersion.new table
        = some { version := cstr (table.getD 0 [])
                 camlibs := cstr (table.getD 1 [])
                 compiler := cstr (table.getD 2 [])
                 ltdl := cstr (table.getD 3 [])
                 exif := cstr (table.getD 4 []) })
    ∧ (table.length < 5 → LibraryVersion.new table = none) := by
  constructor
  · intro h
    simp [LibraryVersion.new, h]
  · intro h
    have h5 : ¬ 5 ≤ table.length := by omega
    simp [LibraryVersion.new, h5]

/-- Witness for the amended C9: a two-entry table panics the assertion and
a five-entry table returns its five entries. -/
theorem C9_amended_witness :
    LibraryVersion.new [[50], [51]] = none
    ∧ LibraryVersion.new [[50], [51], [52], [53], [54]]
        = some { version := [50], camlibs := [51], compiler := [52], ltdl := [53], exif := [54] } :=
  ⟨(C9_amended_version_table [[50], [51]]).2 (by decide),
   by
    have h := (C9_amended_version_table [[50], [51], [52], [53], [54]]).1 (by decide)
    simpa using h⟩

end Gphoto

namespace Gphoto

/-! ## Native resource lifecycles (src/context.rs, src/camera.rs, src/media.rs)

Each owning handle is modelled by the trace of native acquisition and
release events its construction and destruction perform.  The fallible
native calls are parameters (their status codes), so the traces cover every
environment behaviour.  Rust drops a local owner on every exit path,
including the early `return Err(..)` inside `try_unsafe!`; the traces record
the release that each such drop performs.
-/

/-- The native resources owned by the binding handles: the library context,
the camera session, the `CameraFile` object, and the raw file descriptor. -/
inductive NativeRes where
  | context
  | camera
  | file
  | fd
deriving DecidableEq, Repr, Fintype

/-- One native acquisition or release. -/
inductive ResEvent where
  | acq (r : NativeRes)
  | rel (r : NativeRes)
deriving DecidableEq, Repr

/-- Number of acquisitions of resource `r` in a trace. -/
def acqCount (r : NativeRes) (t : List ResEvent) : Nat := t.count (ResEvent.acq r)

/-- Number of releases of resource `r` in a trace. -/
def relCount (r : NativeRes) (t : List ResEvent) : Nat := t.count (ResEvent.rel r)

/-- `Context::new` from src/context.rs: `gp_context_new` either allocates a
context (non-null pointer) or yields null, mapped to `GP_ERROR_NO_MEMORY`. -/
def Context.new (ptrIsNull : Bool) : Except Error Unit × List ResEvent :=
  if ptrIsNull then (Except.error (from_libgphoto2 GP_ERROR_NO_MEMORY), [])
  else (Except.ok (), [ResEvent.acq NativeRes.context])

/-- `Drop for Context` from src/context.rs: `gp_context_unref`. -/
def contextDrop : List ResEvent := [ResEvent.rel NativeRes.context]

/-- A full construct-then-drop lifecycle of a `Context`: the drop runs only
when an owner was actually returned. -/
def contextLifecycle (ptrIsNull : Bool) : List ResEvent :=
  let r := Context.new ptrIsNull
  r.2 ++ (match r.1 with
    | Except.ok _ => contextDrop
    | Except.error _ => [])

/-- `Camera::autodetect` from src/camera.rs: `gp_camera_new` then
`gp_camera_init`, each checked through `try_unsafe!`.  When allocation
succeeds but initialization fails, the early error return drops the
already-constructed `Camera` local, whose `Drop` calls `gp_camera_unref` —
the release event in the middle branch. -/
def Camera.autodetect (newResult initResult : Int) : Except Error Unit × List ResEvent :=
  if newResult = GP_OK then
    if initResult = GP_OK then
      (Except.ok (), [ResEvent.acq NativeRes.camera])
    else
      (Except.error (from_libgphoto2 initResult),
       [ResEvent.acq NativeRes.camera, ResEvent.rel NativeRes.camera])
  else (Except.error (from_libgphoto2 newResult), [])

/-- `Drop for Camera` from src/camera.rs: `gp_camera_unref`. -/
def cameraDrop : List ResEvent := [ResEvent.rel NativeRes.camera]

/-- A full construct-then-drop lifecycle of a `Camera`. -/
def cameraLifecycle (newResult initResult : Int) : List ResEvent :=
  let r := Camera.autodetect newResult initResult
  r.2 ++ (match r.1 with
    | Except.ok _ => cameraDrop
    | Except.error _ => [])

/-- `FileMedia::create` from src/media.rs, as its native-resource trace:
`CString::new` fails on an interior NUL (`GP_ERROR_BAD_PARAMETERS`, nothing
acquired); a failed `open` returns `GP_ERROR_FILE_EXISTS` with nothing
acquired; a successful `open` acquires the descriptor, after which
`gp_file_new_from_fd` either takes ownership of it inside the new
`CameraFile` object or fails, in which case the descriptor is explicitly
closed before the error returns. -/
def FileMedia.create (interiorNul : Bool) (openResult : Int) (gpNewResult : Int) :
    Except Error Unit × List ResEvent :=
  if interiorNul then (Except.error (from_libgphoto2 GP_ERROR_BAD_PARAMETERS), [])
  else if openResult < 0 then (Except.error (from_libgphoto2 GP_ERROR_FILE_EXISTS), [])
  else if gpNewResult = GP_OK then
    (Except.ok (), [ResEvent.acq NativeRes.fd, ResEvent.acq NativeRes.file])
  else
    (Except.error (from_libgphoto2 gpNewResult),
     [ResEvent.acq NativeRes.fd, ResEvent.rel NativeRes.fd])

/-- `Drop for FileMedia` from src/media.rs: `gp_file_unref` releases the
`CameraFile` object, which owns and closes the descriptor it adopted. -/
def fileDrop : List ResEvent := [ResEvent.rel NativeRes.file, ResEvent.rel NativeRes.fd]

/-- A full construct-then-drop lifecycle of a `FileMedia`. -/
def fileLifecycle (interiorNul : Bool) (openResult gpNewResult : Int) : List ResEvent :=
  let r := FileMedia.create interiorNul openResult gpNewResult
  r.2 ++ (match r.1 with
    | Except.ok _ => fileDrop
    | Except.error _ => [])

/-- Claim C3: each owning handle (Context, Camera, FileMedia) performs, over
its whole lifecycle and in every environment, at most one acquisition of
each native resource, matched by exactly as many releases — never duplicated
and never skipped — with exactly one acquisition/release pair whenever the
acquiring native call succeeds; in particular, when `gp_camera_new` succeeds
but `gp_camera_init` fails, the already-allocated camera handle is still
released on the error path. -/
theorem C3_resource_lifecycles (ptrIsNull interiorNul : Bool)
    (newResult initResult openResult gpNewResult : Int) :
    (∀ r, acqCount r (contextLifecycle ptrIsNull) = relCount r (contextLifecycle ptrIsNull)
      ∧ acqCount r (contextLifecycle ptrIsNull) ≤ 1)
    ∧ (∀ r, acqCount r (cameraLifecycle newResult initResult)
          = relCount r (cameraLifecycle newResult initResult)
      ∧ acqCount r (cameraLifecycle newResult initResult) ≤ 1)
    ∧ (∀ r, acqCount r (fileLifecycle interiorNul openResult gpNewResult)
          = relCount r (fileLifecycle interiorNul openResult gpNewResult)
      ∧ acqCount r (fileLifecycle interiorNul openResult gpNewResult) ≤ 1)
    ∧ (ptrIsNull = false →
        acqCount NativeRes.context (contextLifecycle ptrIsNull) = 1
        ∧ relCount NativeRes.context (contextLifecycle ptrIsNull) = 1)
    ∧ (newResult = GP_OK →
        acqCount NativeRes.camera (cameraLifecycle newResult initResult) = 1
        ∧ relCount NativeRes.camera (cameraLifecycle newResult initResult) = 1)
    ∧ (interiorNul = false → 0 ≤ openResult →
        acqCount NativeRes.fd (fileLifecycle interiorNul openResult gpNewResult) = 1
        ∧ relCount NativeRes.fd (fileLifecycle interiorNul openResult gpNewResult) = 1)
    ∧ (interiorNul = false → 0 ≤ openResult → gpNewResult = GP_OK →
        acqCount NativeRes.file (fileLifecycle interiorNul openResult gpNewResult) = 1
        ∧ relCount NativeRes.file (fileLifecycle interiorNul openResult gpNewResult) = 1)
    ∧ (newResult = GP_OK → initResult ≠ GP_OK →
        Camera.autodetect newResult initResult
          = (Except.error (from_libgphoto2 initResult),
             [ResEvent.acq NativeRes.camera, ResEvent.rel NativeRes.camera])) := by
  have hopen : ¬ openResult < 0 → (0 ≤ openResult) := fun h => by omega
  refine ⟨?_, ?_, ?_, ?_, ?_, ?_, ?_, ?_⟩
  · cases ptrIsNull <;>
      simp [contextLifecycle, Context.new, contextDrop] <;> decide
  · by_cases hnr : newResult = GP_OK <;> by_cases hir : initResult = GP_OK <;>
      simp [cameraLifecycle, Camera.autodetect, cameraDrop, hnr, hir] <;> decide
  · cases interiorNul <;> by_cases ho : openResult < 0 <;>
      by_cases hg : gpNewResult = GP_OK <;>
      simp [fileLifecycle, FileMedia.create, fileDrop, ho, hg] <;> decide
  · intro h
    subst h
    constructor <;> decide
  · intro h
    by_cases hir : initResult = GP_OK <;>
      simp [cameraLifecycle, Camera.autodetect, cameraDrop, h, hir] <;> decide
  · intro h ho
    have ho2 : ¬ openResult < 0 := by omega
    by_cases hg : gpNewResult = GP_OK <;>
      simp [fileLifecycle, FileMedia.create, fileDrop, h, ho2, hg] <;> decide
  · intro h ho hg
    have ho2 : ¬ openResult < 0 := by omega
    simp [fileLifecycle, FileMedia.create, fileDrop, h, ho2, hg]
    decide
  · intro h hir
    simp [Camera.autodetect, h, hir]

/-- Witness for C3 at a concrete environment: allocation succeeds, the
init probe fails with `GP_ERROR_MODEL_NOT_FOUND`, and the allocated camera
is still released. -/
theorem C3_witness :
    Camera.autodetect GP_OK GP_ERROR_MODEL_NOT_FOUND
      = (Except.error (from_libgphoto2 GP_ERROR_MODEL_NOT_FOUND),
         [ResEvent.acq NativeRes.camera, ResEvent.rel NativeRes.camera]) :=
  (C3_resource_lifecycles false false GP_OK GP_ERROR_MODEL_NOT_FOUND 3 GP_OK).2.2.2.2.2.2.2
    rfl (by decide)

/-- Claim C10: whenever the exclusive-create `open` call fails — whatever
the reason, its result being any negative value — `FileMedia::create`
returns an error whose kind is `FileExists`. -/
theorem C10_open_failure_maps_to_FileExists (openResult gpNewResult : Int)
    (h : openResult < 0) :
    (FileMedia.create false openResult gpNewResult).1
      = Except.error (from_libgphoto2 GP_ERROR_FILE_EXISTS)
    ∧ (from_libgphoto2 GP_ERROR_FILE_EXISTS).kind = ErrorKind.FileExists := by
  constructor
  · simp [FileMedia.create, h]
  · decide

/-- Witness for C10: an open failure that is not caused by an existing file
(say `-13`, a permission failure) still maps to `FileExists`. -/
theorem C10_witness :
    (FileMedia.create false (-13) GP_OK).1
      = Except.error (from_libgphoto2 GP_ERROR_FILE_EXISTS)
    ∧ (from_libgphoto2 GP_ERROR_FILE_EXISTS).kind = ErrorKind.FileExists :=
  C10_open_failure_maps_to_FileExists (-13) GP_OK (by decide)

end Gphoto

namespace Gphoto

/-! ## FileMedia against a local filesystem (src/media.rs) -/

/-- A local filesystem: an association list from paths to file contents
(both byte lists). -/
def FileSystem := List (List Nat × List Nat)

/-- Modelled from the spec: the POSIX `open(path, O_CREAT|O_EXCL|O_RDWR,
0o644)` call used by `FileMedia::create` — exclusive-create semantics (§4.5:
fails when the path already exists, never silently overwrites; otherwise
creates a new empty file and returns a non-negative descriptor, represented
here by 3). -/
def osOpenExcl (fs : FileSystem) (path : List Nat) : Int × FileSystem :=
  match List.lookup path fs with
  | some _ => (-1, fs)
  | none => (3, (path, []) :: fs)

/-- `FileMedia::create` from src/media.rs, run against the filesystem model:
interior-NUL paths fail `CString::new` (`GP_ERROR_BAD_PARAMETERS`), a failed
open maps to `GP_ERROR_FILE_EXISTS`, and `gp_file_new_from_fd` either
succeeds or its error code is propagated.  The second component is the
filesystem after the call. -/
def FileMedia.createFS (fs : FileSystem) (path : List Nat) (gpNewResult : Int) :
    Except Error Unit × FileSystem :=
  if path.contains 0 then (Except.error (from_libgphoto2 GP_ERROR_BAD_PARAMETERS), fs)
  else
    match osOpenExcl fs path with
    | (fd, fs2) =>
      if fd < 0 then (Except.error (from_libgphoto2 GP_ERROR_FILE_EXISTS), fs2)
      else if gpNewResult = GP_OK then (Except.ok (), fs2)
      else (Except.error (from_libgphoto2 gpNewResult), fs2)

/-- Claim C5: `FileMedia::create` on an already-existing path fails with an
error of kind `FileExists` and leaves the existing file (and the whole
filesystem) unchanged; on a fresh path, with the native file wrapper
succeeding, it succeeds and leaves behind a newly created file with empty
contents (size 0). -/
theorem C5_exclusive_create (fs : FileSystem) (path : List Nat) (g : Int)
    (hnul : path.contains 0 = false) :
    (∀ c, List.lookup path fs = some c →
      FileMedia.createFS fs path g
          = (Except.error (from_libgphoto2 GP_ERROR_FILE_EXISTS), fs)
      ∧ (from_libgphoto2 GP_ERROR_FILE_EXISTS).kind = ErrorKind.FileExists
      ∧ List.lookup path (FileMedia.createFS fs path g).2 = some c)
    ∧ (List.lookup path fs = none → g = GP_OK →
      FileMedia.createFS fs path g = (Except.ok (), (path, []) :: fs)
      ∧ List.lookup path ((path, []) :: fs) = some []
      ∧ (([] : List Nat)).length = 0) := by
  have hmem : (0 : Nat) ∉ path := by simpa using hnul
  constructor
  · intro c hc
    refine ⟨?_, by decide, ?_⟩
    · simp [FileMedia.createFS, osOpenExcl, hmem, hc]
    · simp [FileMedia.createFS, osOpenExcl, hmem, hc]
  · intro hc hg
    refine ⟨?_, ?_, rfl⟩
    · simp [FileMedia.createFS, osOpenExcl, hmem, hc, hg]
    · simp [List.lookup]

/-- A one-file filesystem for the C5 witness. -/
def demoFS : FileSystem := [([97], [1, 2, 3])]

/-- Witness for C5: creating over the existing path `[97]` fails with
`FileExists` and leaves its contents `[1, 2, 3]` in place; creating the
fresh path `[98]` succeeds and leaves an empty file. -/
theorem C5_witness :
    (FileMedia.createFS demoFS [97] GP_OK
        = (Except.error (from_libgphoto2 GP_ERROR_FILE_EXISTS), demoFS)
      ∧ List.lookup [97] (FileMedia.createFS demoFS [97] GP_OK).2 = some [1, 2, 3])
    ∧ FileMedia.createFS demoFS [98] GP_OK = (Except.ok (), ([98], []) :: demoFS) :=
  ⟨⟨((C5_exclusive_create demoFS [97] GP_OK (by decide)).1 [1, 2, 3] (by decide)).1,
    ((C5_exclusive_create demoFS [97] GP_OK (by decide)).1 [1, 2, 3] (by decide)).2.2⟩,
   ((C5_exclusive_create demoFS [98] GP_OK (by decide)).2 (by decide) rfl).1⟩

end Gphoto

namespace Gphoto

/-! ## Image capture and download (C4)

`Camera::capture_image`, `Camera::download` and the `CameraFile` capture
descriptor are exported by src/lib.rs and exercised by examples/capture.rs,
but their definitions are not present under src/; they are modelled from the
spec below.
-/

/-- Modelled from the spec: the capture-result descriptor returned by
`capture_image` (`CameraFile` re-exported by src/lib.rs; absent from
src/camera.rs).  It wraps the native `CameraFilePath` — a folder and a file
name on the device storage. -/
structure CameraFile where
  folder : List Nat
  name : List Nat
deriving DecidableEq, Repr

/-- Modelled from the spec: `CameraFile::basename` (used by
examples/capture.rs; absent from src/) — the file basename of the capture
descriptor, decoded lossily like the other C-string buffers. -/
def CameraFile.basename (f : CameraFile) : List Nat := utf8Lossy (cstr f.name)

/-- The environment of one capture call: the native status of
`gp_camera_capture` and the `CameraFilePath` it fills in on success. -/
structure CaptureEnv where
  captureResult : Int
  resultFolder : List Nat
  resultName : List Nat
deriving DecidableEq, Repr

/-- Modelled from the spec: `Camera::capture_image(context)` (absent from
src/camera.rs) — triggers a capture through the native library and returns
the capture-result descriptor on success, the mapped error otherwise. -/
def Camera.capture_image (env : CaptureEnv) : Except Error CameraFile :=
  if env.captureResult = GP_OK then
    Except.ok { folder := env.resultFolder, name := env.resultName }
  else Except.error (from_libgphoto2 env.captureResult)

/-- A destination exposing the Media capability: a mutable sink of bytes. -/
structure MediaSink where
  data : List Nat
deriving DecidableEq, Repr

/-- Modelled from the spec: `Camera::download(context, capture_descriptor,
destination)` (absent from src/camera.rs) — transfers the captured file
bytes (`fileData`, as delivered by the native `gp_camera_file_get`) into the
destination sink, or propagates the mapped native error leaving the
destination unchanged. -/
def Camera.download (getResult : Int) (fileData : List Nat) (source : CameraFile)
    (dest : MediaSink) : Except Error Unit × MediaSink :=
  if getResult = GP_OK then (Except.ok (), { dest with data := fileData })
  else (Except.error (from_libgphoto2 getResult), dest)

/-- Claim C4: `capture_image` returns, on success, a capture descriptor
exposing the file basename reported by the device, and `download` transfers
the captured bytes into the Media destination. -/
theorem C4_capture_then_download (env : CaptureEnv) (getResult : Int)
    (fileData : List Nat) (source : CameraFile) (dest : MediaSink) :
    (env.captureResult = GP_OK →
      Camera.capture_image env = Except.ok { folder := env.resultFolder, name := env.resultName }
      ∧ (CameraFile.mk env.resultFolder env.resultName).basename
          = utf8Lossy (cstr env.resultName))
    ∧ (getResult = GP_OK →
      Camera.download getResult fileData source dest = (Except.ok (), { data := fileData }))
    ∧ (getResult ≠ GP_OK →
      Camera.download getResult fileData source dest
        = (Except.error (from_libgphoto2 getResult), dest)) := by
  refine ⟨fun h => ⟨?_, rfl⟩, fun h => ?_, fun h => ?_⟩
  · simp [Camera.capture_image, h]
  · simp [Camera.download, h]
  · simp [Camera.download, h]

/-- Witness for C4: a successful capture of `img_0001.jpg` in folder `/d`
and a successful download of its bytes. -/
theorem C4_witness :
    Camera.capture_image ⟨GP_OK, [47, 100], [105, 109, 103]⟩
        = Except.ok { folder := [47, 100], name := [105, 109, 103] }
    ∧ Camera.download GP_OK [9, 8, 7] ⟨[47, 100], [105, 109, 103]⟩ ⟨[]⟩
        = (Except.ok (), { data := [9, 8, 7] }) :=
  ⟨((C4_capture_then_download ⟨GP_OK, [47, 100], [105, 109, 103]⟩ GP_OK [9, 8, 7]
      ⟨[47, 100], [105, 109, 103]⟩ ⟨[]⟩).1 rfl).1,
   (C4_capture_then_download ⟨GP_OK, [47, 100], [105, 109, 103]⟩ GP_OK [9, 8, 7]
      ⟨[47, 100], [105, 109, 103]⟩ ⟨[]⟩).2.1 rfl⟩

end Gphoto
